import Mathlib

/-!
Shallow embedding of the print-dispatch layer of electron-hiprint:
* `src/pdf-print.js` — the PDF Print Adapter (`printPdf`, `printPdfBlob`,
  `realPrint` and the Windows engine chain);
* the print-window module (`initPrintEvent`) — the Print Dispatcher,
  the Status Prober (`safeGetStatusMsg`), printer resolution and the
  status gate.

External effects (Electron APIs, subprocess spawning, the file system,
HTTP downloads, the SQLite sink) are modelled as oracle fields of an
environment record; the control flow that routes a job between them is
translated branch by branch from the JavaScript source.
-/

set_option autoImplicit false

namespace HiPrint

/-- The OS families the source branches on via `process.platform`:
`"win32"` versus everything else (mac/linux). -/
inductive Platform where
  | win32
  | darwin
  | linux
deriving DecidableEq

/-- A JavaScript rejection value as the source produces and consumes it:
an `Error` object with a `message`, a plain string, or the plain
`\x7b path, msg \x7d` object that `realPrint` rejects with when the file is
missing. -/
inductive JsErr where
  | errorObj (message : String)
  | str (s : String)
  | pathMsgObj (path : String) (msg : String)
deriving DecidableEq

/-- JavaScript `String(err)`: an `Error` stringifies to `"Error: <msg>"`
(or just `"Error"` when the message is empty), a string to itself, and a
plain object to `"[object Object]"`. -/
def JsErr.jsToString : JsErr → String
  | .errorObj m => if m = "" then "Error" else "Error: " ++ m
  | .str s => s
  | .pathMsgObj _ _ => "[object Object]"

/-- The idiom `err?.message || String(err)` used throughout the dispatcher:
the `message` property when it exists and is truthy, else `String(err)`
(strings and the plain path/msg object have no `message` property). -/
def JsErr.msgOrString (e : JsErr) : String :=
  match e with
  | .errorObj m => if m = "" then e.jsToString else m
  | .str _ => e.jsToString
  | .pathMsgObj _ _ => e.jsToString

/-- JavaScript `a || b` on an optional string: a missing or empty string
is falsy and falls through to the default. -/
def jsOrStr : Option String → String → String
  | some s, d => if s = "" then d else s
  | none, d => d

/-! ## PDF Print Adapter (`src/pdf-print.js`) -/

/-- The three Windows print engines of the adapter. -/
inductive Engine where
  | adobe
  | system
  | sumatra
deriving DecidableEq

/-- `chainByEngine[engine] || chainByEngine.adobe` from `realPrint`: the
configured primary first, then the remaining two in the fixed order the
source writes out; any unrecognized key falls back to the adobe chain. -/
def chainByEngine : String → List Engine
  | "adobe" => [.adobe, .system, .sumatra]
  | "system" => [.system, .adobe, .sumatra]
  | "sumatra" => [.sumatra, .system, .adobe]
  | _ => [.adobe, .system, .sumatra]

/-- JavaScript `s.toLowerCase()` on the character lists (the tags the
dispatcher compares against are ASCII). -/
def jsToLowerCase (s : String) : String :=
  String.mk (s.data.map Char.toLower)

/-- `(store.get("winPdfEngine") || "adobe").toLowerCase()`. -/
def engineKey (winPdfEngine : Option String) : String :=
  jsToLowerCase (jsOrStr winPdfEngine "adobe")

/-- The log line `realPrint` writes when one engine of the chain throws. -/
def engineFailLog (e : JsErr) : String :=
  "win pdf engine step failed: " ++ e.msgOrString

/-- The aggregate rejection when every Windows engine has failed. -/
def allEnginesFailedErr : JsErr :=
  .errorObj "所有 Windows PDF 打印引擎均失败"

/-- Environment of the adapter: configuration read from the store, the
process platform, and oracles for every external effect (`fs.existsSync`,
each engine attempt, the unix `lp` print, the HTTP download, the async
blob write). -/
structure PdfEnv where
  platform : Platform
  winPdfEngine : Option String
  storePdfPath : Option String
  tmpdir : String
  timestamp : String
  uuid : String
  fileExists : String → Bool
  engineResult : Engine → Except JsErr Unit
  unixPrintResult : Except JsErr Unit
  downloadResult : Except JsErr Unit
  writeBlobResult : Except JsErr Unit

/-- The `for (const step of chain)` loop of `realPrint`: try each engine in
order, logging each failure; the first success resolves, exhaustion
rejects with the aggregate error. Returns the log lines and the outcome. -/
def runChain (results : Engine → Except JsErr Unit) :
    List Engine → List String × Except JsErr Unit
  | [] => ([], .error allEnginesFailedErr)
  | e :: rest =>
    match results e with
    | .ok _ => ([], .ok ())
    | .error err =>
      let (logs, r) := runChain results rest
      (engineFailLog err :: logs, r)

/-- Outcome of one `realPrint` call: the engine-failure log lines it wrote
and its resolution/rejection. -/
structure RealPrintResult where
  logs : List String
  result : Except JsErr Unit

/-- `realPrint` from `src/pdf-print.js`: reject `\x7b path, msg: "file not
found" \x7d` when the file is absent; on win32 run the engine chain selected
by `winPdfEngine`; elsewhere invoke the unix print utility once. -/
def realPrint (env : PdfEnv) (pdfPath : String) : RealPrintResult :=
  if env.fileExists pdfPath = false then
    { logs := [], result := .error (.pathMsgObj pdfPath "file not found") }
  else
    match env.platform with
    | .win32 =>
      let r := runChain env.engineResult (chainByEngine (engineKey env.winPdfEngine))
      { logs := r.1, result := r.2 }
    | _ => { logs := [], result := env.unixPrintResult }

/-- `path.join(store.get("pdfPath") || os.tmpdir(), sub, name)` — path
separators abstracted to `/`. -/
def spoolPath (env : PdfEnv) (sub : String) : String :=
  jsOrStr env.storePdfPath env.tmpdir ++ "/" ++ sub ++ "/" ++
    env.timestamp ++ env.uuid ++ ".pdf"

/-- Whether a character is matched by `.` in a JavaScript regex (any
character except the four line terminators). -/
def regexDotMatches (c : Char) : Bool :=
  c ≠ '\n' && c ≠ '\r' && c.val ≠ 0x2028 && c.val ≠ 0x2029

/-- JavaScript `s.startsWith(p)`, on the character lists. -/
def strStartsWith (s p : String) : Bool :=
  decide (s.data.take p.data.length = p.data)

/-- The test `/^https?:\/\/.+/.test(pdfPath)`: the string starts with
`http://` or `https://` and the next character is matched by `.`
(the rest of `.+` is unconstrained since the regex is not end-anchored). -/
def httpUrlTest (s : String) : Bool :=
  if strStartsWith s "https://" then
    match s.data.drop 8 with
    | [] => false
    | c :: _ => regexDotMatches c
  else if strStartsWith s "http://" then
    match s.data.drop 7 with
    | [] => false
    | c :: _ => regexDotMatches c
  else
    false

/-- The `pdfPath` argument of `printPdf`, which accepts any JavaScript
value and rejects non-strings. -/
inductive JsInput where
  | str (s : String)
  | nonString
deriving DecidableEq

/-- Trace of one `printPdf` call: the spool file a URL was downloaded to
(if any), whether the secure transport was chosen, the path handed to
`realPrint` (if it was reached), and the promise outcome. -/
structure PrintPdfTrace where
  downloadedTo : Option String
  usedHttps : Option Bool
  realPrintOn : Option String
  logs : List String
  result : Except JsErr Unit

/-- `printPdf` from `src/pdf-print.js`: reject non-strings with the plain
string `"pdfPath must be a string"`; download URL inputs to the `url_pdf`
spool file over `https` when the path starts with `"https"`, else `http`,
then print the downloaded file, rejecting on download error without
reaching `realPrint`; hand local paths to `realPrint` as-is. -/
def printPdf (env : PdfEnv) (pdfPath : JsInput) : PrintPdfTrace :=
  match pdfPath with
  | .nonString =>
    { downloadedTo := none, usedHttps := none, realPrintOn := none,
      logs := [], result := .error (.str "pdfPath must be a string") }
  | .str s =>
    if httpUrlTest s then
      let secure := strStartsWith s "https"
      match env.downloadResult with
      | .error err =>
        { downloadedTo := none, usedHttps := some secure, realPrintOn := none,
          logs := ["download pdf error:" ++ err.msgOrString],
          result := .error err }
      | .ok _ =>
        let toSavePath := spoolPath env "url_pdf"
        let rp := realPrint env toSavePath
        { downloadedTo := some toSavePath, usedHttps := some secure,
          realPrintOn := some toSavePath,
          logs := ("file downloaded:" ++ toSavePath) :: rp.logs,
          result := rp.result }
    else
      let rp := realPrint env s
      { downloadedTo := none, usedHttps := none, realPrintOn := some s,
        logs := rp.logs, result := rp.result }

/-- The `pdfBlob` argument of `printPdfBlob`: one of the three accepted
binary representations carrying its bytes, or anything else. -/
inductive BlobInput where
  | buffer (bytes : List Nat)
  | uint8array (bytes : List Nat)
  | blob (bytes : List Nat)
  | invalid
deriving DecidableEq

/-- The `isValid` check of `printPdfBlob`: a Blob, Uint8Array or Buffer. -/
def blobIsValid : BlobInput → Bool
  | .buffer _ => true
  | .uint8array _ => true
  | .blob _ => true
  | .invalid => false

/-- The `toBuffer` helper of `printPdfBlob`: a Buffer is kept, a Blob goes
through `arrayBuffer()`, a Uint8Array through `Buffer.from` — in every
case the same bytes as a uniform buffer. -/
def toBuffer : BlobInput → Option (List Nat)
  | .buffer b => some b
  | .uint8array b => some b
  | .blob b => some b
  | .invalid => none

/-- Trace of one `printPdfBlob` call: the spool file the bytes were
written to, the bytes written, the path handed to `realPrint` (if
reached), and the promise outcome. -/
structure PrintBlobTrace where
  savedTo : Option String
  savedBytes : Option (List Nat)
  realPrintOn : Option String
  result : Except JsErr Unit

/-- `printPdfBlob` from `src/pdf-print.js`: reject anything that is not a
Blob, Uint8Array or Buffer with a typed `Error`; otherwise convert to a
buffer, write it to the `blob_pdf` spool file (rejecting on write error
without printing), then print the file. -/
def printPdfBlob (env : PdfEnv) (pdfBlob : BlobInput) : PrintBlobTrace :=
  if blobIsValid pdfBlob = false then
    { savedTo := none, savedBytes := none, realPrintOn := none,
      result := .error (.errorObj "pdfBlob must be a Blob, Uint8Array, or Buffer") }
  else
    let toSavePath := spoolPath env "blob_pdf"
    match env.writeBlobResult with
    | .error err =>
      { savedTo := none, savedBytes := none, realPrintOn := none,
        result := .error err }
    | .ok _ =>
      let rp := realPrint env toSavePath
      { savedTo := some toSavePath, savedBytes := toBuffer pdfBlob,
        realPrintOn := some toSavePath, result := rp.result }

/-! ## Status Prober (`safeGetStatusMsg`) -/

/-- The record returned by `getCurrentPrintStatusByName`, of which only
the `StatusMsg` field is read; `none` models an absent/falsy field. -/
structure StatusInfo where
  StatusMsg : Option String

/-- The outcome of one `getCurrentPrintStatusByName` lookup: a thrown
error, or a possibly-null info record. -/
abbrev StatusLookup := Except JsErr (Option StatusInfo)

/-- `safeGetStatusMsg`: `(info && info.StatusMsg) || "未知状态"` inside a
try/catch that logs and returns `"状态不可用"` on any throw. -/
def safeGetStatusMsg (lookup : StatusLookup) : String :=
  match lookup with
  | .error _ => "状态不可用"
  | .ok info =>
    match info with
    | none => "未知状态"
    | some i =>
      match i.StatusMsg with
      | none => "未知状态"
      | some m => if m = "" then "未知状态" else m

/-! ## Print Dispatcher (`initPrintEvent`) -/

/-- The module constant `IGNORE_STATUS_ON_WIN32` (set to `true` in the
source). -/
def IGNORE_STATUS_ON_WIN32 : Bool := true

/-- One entry of `getPrintersAsync()`: name, default flag, status code. -/
structure PrinterInfo where
  name : String
  isDefault : Bool
  status : Int
deriving DecidableEq

/-- One iteration of the `printers.forEach` resolution loop: a printer
with `isDefault` fills an empty current name, and a printer whose name
equals the (possibly just-updated) current name becomes the target. -/
def resolveStep (acc : String × Option PrinterInfo) (p : PrinterInfo) :
    String × Option PrinterInfo :=
  let dp := if p.isDefault && acc.1 = "" then p.name else acc.1
  let tp := if p.name = dp then some p else acc.2
  (dp, tp)

/-- The printer-resolution loop over `printers`, starting from the
initial `data.printer || store.get("defaultPrinter", "")`. Returns the
final resolved name and the target printer (if any). -/
def resolvePrinter (printers : List PrinterInfo) (init : String) :
    String × Option PrinterInfo :=
  printers.foldl resolveStep (init, none)

/-- The status gate: with a target printer found, on win32 fault only
when the ignore override is off and the status differs from 0; on other
platforms fault when the status differs from 3; with no target printer
found, never fault. -/
def printerErrorGate (platform : Platform) (ignore : Bool)
    (targetPrinter : Option PrinterInfo) : Bool :=
  match targetPrinter with
  | none => false
  | some p =>
    match platform with
    | .win32 => if ignore then false else decide (p.status ≠ 0)
    | _ => decide (p.status ≠ 3)

/-- Which terminal path of the dispatcher a job took. -/
inductive BranchTag where
  | faulted
  | pdf
  | urlPdf
  | blobPdf
  | blobMissing
  | html
deriving DecidableEq

/-- One operation on the Pending-Completion Registry
(`PRINT_RUNNER_DONE`): calling the stored callback, or deleting the
entry. -/
inductive RegOp where
  | invoke (taskId : String)
  | del (taskId : String)
deriving DecidableEq

/-- One `socket.emit(name, payload)` of the dispatcher. -/
structure JobEvent where
  name : String
  msg : String
  templateId : String
  replyId : Option String
deriving DecidableEq

/-- One row inserted into `print_logs` (the serialized job-descriptor
column, a pure echo of the input, is not modelled). -/
structure LogRecord where
  socketId : Option String
  clientType : String
  printer : String
  templateId : String
  pageNum : Nat
  status : String
  rePrintAble : Int
  errorMessage : String
deriving DecidableEq

/-- The fields of the inbound job descriptor the dispatcher reads
(rendering-option fields, passed through to the print backends, are not
modelled). The `type` tag is `none` when absent. -/
structure JobData where
  clientType : String
  printer : Option String
  templateId : String
  type : Option String
  pageNum : Nat
  pdf_blob : Option BlobInput
  taskId : Option String
  replyId : Option String
  rePrintAble : Option Int

/-- Environment of one dispatch: the enumerated printers, the persisted
default-printer setting, the platform and override constant, the
resolved socket (its id, or `none` when no socket was found), and
oracles for the status lookup and for each branch's asynchronous
outcome. `printToPDFResult` covers the render-to-PDF step and the
synchronous spool write that precedes the adapter call in the pdf
branch; `adapterResult` is the outcome of the `printPdf`/`printPdfBlob`
promise; `htmlResult` carries the native print callback's
`failureReason` on failure. -/
structure DispatchEnv where
  printers : List PrinterInfo
  storeDefaultPrinter : String
  platform : Platform
  ignoreStatusOnWin32 : Bool
  socket : Option String
  statusLookup : StatusLookup
  printToPDFResult : Except JsErr Unit
  adapterResult : Except JsErr Unit
  htmlResult : Except String Unit

/-- Everything observable about one dispatched job: the branch taken,
whether the unknown-printer warning was logged, the `print_logs` rows
inserted, the socket events emitted, the registry operations performed,
how many times the PDF Print Adapter was invoked, and how many
busy-state (`printTask`) signals were sent. -/
structure DispatchTrace where
  branch : BranchTag
  warnLogged : Bool
  logRecords : List LogRecord
  events : List JobEvent
  registryOps : List RegOp
  adapterCalls : Nat
  busySignals : Nat

/-- `socket && socket.emit(...)`: events reach the wire only when a
socket was resolved. -/
def emitIfSocket (socket : Option String) (evs : List JobEvent) : List JobEvent :=
  match socket with
  | some _ => evs
  | none => []

/-- The registry bookkeeping run on every terminal path:
`PRINT_RUNNER_DONE[data.taskId]()` then `delete`, only when the job
carries a `taskId`. -/
def registryFinally (taskId : Option String) : List RegOp :=
  match taskId with
  | some t => [.invoke t, .del t]
  | none => []

/-- The truthy-and-case-insensitive type test
`data.type && String(data.type).toLowerCase() === tag`. -/
def typeIs (type : Option String) (tag : String) : Bool :=
  match type with
  | some s => s ≠ "" && jsToLowerCase s = tag
  | none => false

/-- The fixed error message of the missing-blob path. -/
def missingBlobMsg : String := "blob_pdf 缺少 pdf_blob 参数"

/-- The success payload `msg` emitted under both `successs` and
`success`. -/
def printOkMsg : String := "打印成功"

/-- The two success events (back-compatibility duplication) emitted on
every successful non-html and html outcome. -/
def successEvents (data : JobData) : List JobEvent :=
  [⟨"successs", printOkMsg, data.templateId, data.replyId⟩,
   ⟨"success", printOkMsg, data.templateId, data.replyId⟩]

/-- The single error event of the pdf / url_pdf / blob_pdf catch
handlers, message `"打印失败: " ++ (err?.message || String(err))`. -/
def branchErrorEvent (data : JobData) (e : JsErr) : JobEvent :=
  ⟨"error", "打印失败: " ++ e.msgOrString, data.templateId, data.replyId⟩

/-- The `logPrintResult` closure: one `print_logs` row with the given
status and error message. -/
def logPrintResult (env : DispatchEnv) (data : JobData)
    (deviceName status errorMessage : String) : LogRecord :=
  { socketId := env.socket
    clientType := data.clientType
    printer := deviceName
    templateId := data.templateId
    pageNum := data.pageNum
    status := status
    rePrintAble := data.rePrintAble.getD 1
    errorMessage := errorMessage }

/-- The shared shape of the pdf / url_pdf / blob_pdf branch: on promise
resolution log success and emit the duplicated success events, on
rejection log failure and emit one error event; the `finally` block runs
the registry bookkeeping and the busy signal in both cases. -/
def promiseBranchTrace (env : DispatchEnv) (data : JobData)
    (deviceName : String) (tag : BranchTag) (warn : Bool)
    (adapterCalls : Nat) (outcome : Except JsErr Unit) : DispatchTrace :=
  match outcome with
  | .ok _ =>
    { branch := tag, warnLogged := warn
      logRecords := [logPrintResult env data deviceName "success" ""]
      events := emitIfSocket env.socket (successEvents data)
      registryOps := registryFinally data.taskId
      adapterCalls := adapterCalls, busySignals := 1 }
  | .error e =>
    { branch := tag, warnLogged := warn
      logRecords := [logPrintResult env data deviceName "failed" e.msgOrString]
      events := emitIfSocket env.socket [branchErrorEvent data e]
      registryOps := registryFinally data.taskId
      adapterCalls := adapterCalls, busySignals := 1 }

/-- The initial value of the resolution loop:
`data.printer || store.get("defaultPrinter", "")`. -/
def resolveInit (env : DispatchEnv) (data : JobData) : String :=
  jsOrStr data.printer env.storeDefaultPrinter

/-- The final `defaultPrinter` name after the resolution loop (also used
as `deviceName`). -/
def resolvedName (env : DispatchEnv) (data : JobData) : String :=
  (resolvePrinter env.printers (resolveInit env data)).1

/-- The `targetPrinter` found by the resolution loop, if any. -/
def targetPrinterOf (env : DispatchEnv) (data : JobData) : Option PrinterInfo :=
  (resolvePrinter env.printers (resolveInit env data)).2

/-- The body of the `ipcMain.on("do", ...)` handler of
`initPrintEvent`: printer resolution, the status gate with its faulted
path, then exactly one of the four print branches (pdf, url_pdf,
blob_pdf with its missing-payload short-circuit, and the html default),
each ending in the shared log/notify/registry/busy bookkeeping. -/
def initPrintEvent (env : DispatchEnv) (data : JobData) : DispatchTrace :=
  let defaultPrinter := resolvedName env data
  let targetPrinter := targetPrinterOf env data
  let warn := targetPrinter.isNone && defaultPrinter ≠ ""
  let deviceName := defaultPrinter
  if printerErrorGate env.platform env.ignoreStatusOnWin32 targetPrinter then
    let msg := safeGetStatusMsg env.statusLookup
    { branch := .faulted, warnLogged := warn
      logRecords := []
      events := emitIfSocket env.socket
        [⟨"error", defaultPrinter ++ "打印机异常：" ++ msg,
          data.templateId, data.replyId⟩]
      registryOps := registryFinally data.taskId
      adapterCalls := 0, busySignals := 1 }
  else if typeIs data.type "pdf" then
    match env.printToPDFResult with
    | .error e =>
      promiseBranchTrace env data deviceName .pdf warn 0 (.error e)
    | .ok _ =>
      promiseBranchTrace env data deviceName .pdf warn 1 env.adapterResult
  else if typeIs data.type "url_pdf" then
    promiseBranchTrace env data deviceName .urlPdf warn 1 env.adapterResult
  else if typeIs data.type "blob_pdf" then
    match data.pdf_blob with
    | none =>
      { branch := .blobMissing, warnLogged := warn
        logRecords := [logPrintResult env data deviceName "failed" missingBlobMsg]
        events := emitIfSocket env.socket
          [⟨"error", missingBlobMsg, data.templateId, data.replyId⟩]
        registryOps := registryFinally data.taskId
        adapterCalls := 0, busySignals := 1 }
    | some _ =>
      promiseBranchTrace env data deviceName .blobPdf warn 1 env.adapterResult
  else
    match env.htmlResult with
    | .ok _ =>
      { branch := .html, warnLogged := warn
        logRecords := [logPrintResult env data deviceName "success" ""]
        events := emitIfSocket env.socket (successEvents data)
        registryOps := registryFinally data.taskId
        adapterCalls := 0, busySignals := 1 }
    | .error failureReason =>
      { branch := .html, warnLogged := warn
        logRecords := [logPrintResult env data deviceName "failed" failureReason]
        events := emitIfSocket env.socket
          [⟨"error", failureReason, data.templateId, data.replyId⟩]
        registryOps := registryFinally data.taskId
        adapterCalls := 0, busySignals := 1 }

/-! ## Sample inputs for concrete evaluation -/

/-- An adapter environment on win32 whose Adobe engine fails (no
executable found) and whose system engine succeeds; every file exists,
downloads and blob writes succeed. -/
def samplePdfEnv : PdfEnv where
  platform := .win32
  winPdfEngine := some "adobe"
  storePdfPath := some "C:/spool"
  tmpdir := "/tmp"
  timestamp := "2026_10_11 12_00_00_"
  uuid := "u1"
  fileExists := fun _ => true
  engineResult := fun e =>
    match e with
    | .adobe => .error (.errorObj "未找到 Adobe Reader/Acrobat 可执行文件")
    | .system => .ok ()
    | .sumatra => .ok ()
  unixPrintResult := .ok ()
  downloadResult := .ok ()
  writeBlobResult := .ok ()

/-- A dispatcher environment on linux with one idle default printer
(status 3) and a live socket; every asynchronous outcome succeeds. -/
def sampleDispatchEnv : DispatchEnv where
  printers := [⟨"HP", true, 3⟩]
  storeDefaultPrinter := ""
  platform := .linux
  ignoreStatusOnWin32 := IGNORE_STATUS_ON_WIN32
  socket := some "sock1"
  statusLookup := .ok none
  printToPDFResult := .ok ()
  adapterResult := .ok ()
  htmlResult := .ok ()

/-- The same dispatcher environment with the printer reporting status 0,
which the non-win32 gate treats as faulted. -/
def faultedDispatchEnv : DispatchEnv where
  printers := [⟨"HP", true, 0⟩]
  storeDefaultPrinter := ""
  platform := .linux
  ignoreStatusOnWin32 := IGNORE_STATUS_ON_WIN32
  socket := some "sock1"
  statusLookup := .ok none
  printToPDFResult := .ok ()
  adapterResult := .ok ()
  htmlResult := .ok ()

/-- A `blob_pdf` job carrying a task id but no `pdf_blob` payload. -/
def sampleJobMissingBlob : JobData where
  clientType := "local"
  printer := none
  templateId := "T1"
  type := some "blob_pdf"
  pageNum := 1
  pdf_blob := none
  taskId := some "J1"
  replyId := none
  rePrintAble := none

/-- A `pdf` job carrying a task id. -/
def sampleJobPdf : JobData where
  clientType := "local"
  printer := none
  templateId := "T1"
  type := some "pdf"
  pageNum := 1
  pdf_blob := none
  taskId := some "J1"
  replyId := none
  rePrintAble := none

/-- An `html` job naming a printer absent from the enumerated list. -/
def sampleJobUnknownPrinter : JobData where
  clientType := "local"
  printer := some "Unknown"
  templateId := "T2"
  type := some "html"
  pageNum := 1
  pdf_blob := none
  taskId := none
  replyId := none
  rePrintAble := none

end HiPrint

namespace HiPrint

/-! ## Helper lemmas -/

/-- `err?.message || String(err)` is non-empty unless the rejection value
is the empty string itself. -/
theorem msgOrString_ne_empty (e : JsErr) (h : e ≠ .str "") :
    e.msgOrString ≠ "" := by
  cases e with
  | errorObj m =>
    by_cases hm : m = "" <;>
      simp [JsErr.msgOrString, JsErr.jsToString, hm]
  | str s =>
    have hs : s ≠ "" := fun hc => h (by rw [hc])
    simpa [JsErr.msgOrString, JsErr.jsToString] using hs
  | pathMsgObj p m =>
    simp [JsErr.msgOrString, JsErr.jsToString]

/-- A `resolveStep` from a non-empty current name keeps the name and
only possibly updates the target. -/
theorem resolveStep_of_ne (acc : String × Option PrinterInfo) (p : PrinterInfo)
    (h : acc.1 ≠ "") :
    resolveStep acc p = (acc.1, if p.name = acc.1 then some p else acc.2) := by
  simp [resolveStep, h]

/-- The resolution fold never changes a non-empty name. -/
theorem foldl_resolveStep_fst (ps : List PrinterInfo) :
    ∀ dp : String, ∀ tp : Option PrinterInfo, dp ≠ "" →
      (ps.foldl resolveStep (dp, tp)).1 = dp := by
  induction ps with
  | nil => intro dp tp _; rfl
  | cons p rest ih =>
    intro dp tp h
    rw [List.foldl_cons, resolveStep_of_ne (dp, tp) p h]
    exact ih dp _ h

/-- Starting from a non-empty name whose initial target (if any) bears
that name, any target the fold produces bears the name and comes from
the list or was the initial target. -/
theorem foldl_resolveStep_snd (ps : List PrinterInfo) :
    ∀ dp : String, ∀ tp : Option PrinterInfo, dp ≠ "" →
      (∀ q : PrinterInfo, tp = some q → q.name = dp) →
      ∀ q : PrinterInfo, (ps.foldl resolveStep (dp, tp)).2 = some q →
        q.name = dp ∧ (q ∈ ps ∨ tp = some q) := by
  induction ps with
  | nil =>
    intro dp tp _ htp q hq
    exact ⟨htp q hq, Or.inr hq⟩
  | cons p rest ih =>
    intro dp tp h htp q hq
    rw [List.foldl_cons, resolveStep_of_ne (dp, tp) p h] at hq
    have htp' : ∀ r : PrinterInfo,
        (if p.name = dp then some p else tp) = some r → r.name = dp := by
      intro r hr
      by_cases hp : p.name = dp
      · rw [if_pos hp] at hr
        rw [← Option.some_inj.mp hr]
        exact hp
      · rw [if_neg hp] at hr
        exact htp r hr
    rcases ih dp _ h htp' q hq with ⟨hname, hmem⟩
    refine ⟨hname, ?_⟩
    rcases hmem with hm | hm
    · exact Or.inl (List.mem_cons_of_mem p hm)
    · by_cases hp : p.name = dp
      · rw [if_pos hp] at hm
        exact Or.inl (by rw [← Option.some_inj.mp hm]; exact List.mem_cons_self p rest)
      · rw [if_neg hp] at hm
        exact Or.inr hm

/-- The resolved name is the initial one or the name of some printer in
the list. -/
theorem foldl_resolveStep_fst_mem (ps : List PrinterInfo) :
    ∀ acc : String × Option PrinterInfo,
      (ps.foldl resolveStep acc).1 = acc.1 ∨
        (ps.foldl resolveStep acc).1 ∈ ps.map PrinterInfo.name := by
  induction ps with
  | nil => intro acc; exact Or.inl rfl
  | cons p rest ih =>
    intro acc
    rw [List.foldl_cons]
    rcases ih (resolveStep acc p) with h | h
    · rw [h]
      by_cases hd : (p.isDefault && acc.1 = "") = true
      · exact Or.inr (by simp [resolveStep, hd])
      · exact Or.inl (by simp [resolveStep, hd])
    · exact Or.inr (List.mem_cons_of_mem _ h)

/-- A list without default printers never changes the current name. -/
theorem foldl_resolveStep_no_default (ps : List PrinterInfo) :
    ∀ dp : String, ∀ tp : Option PrinterInfo,
      (∀ q ∈ ps, q.isDefault = false) →
      (ps.foldl resolveStep (dp, tp)).1 = dp := by
  induction ps with
  | nil => intro dp tp _; rfl
  | cons p rest ih =>
    intro dp tp h
    have hp : p.isDefault = false := h p (List.mem_cons_self p rest)
    have hstep : resolveStep (dp, tp) p =
        (dp, if p.name = dp then some p else tp) := by
      simp [resolveStep, hp]
    rw [List.foldl_cons, hstep]
    exact ih dp _ (fun q hq => h q (List.mem_cons_of_mem p hq))

/-- Projections of the shared promise-branch trace: the branch tag. -/
theorem promiseBranchTrace_branch (env : DispatchEnv) (data : JobData)
    (dn : String) (tag : BranchTag) (warn : Bool) (ac : Nat)
    (outcome : Except JsErr Unit) :
    (promiseBranchTrace env data dn tag warn ac outcome).branch = tag := by
  cases outcome <;> rfl

/-- Projections of the shared promise-branch trace: the warning flag. -/
theorem promiseBranchTrace_warnLogged (env : DispatchEnv) (data : JobData)
    (dn : String) (tag : BranchTag) (warn : Bool) (ac : Nat)
    (outcome : Except JsErr Unit) :
    (promiseBranchTrace env data dn tag warn ac outcome).warnLogged = warn := by
  cases outcome <;> rfl

/-- Projections of the shared promise-branch trace: the registry
bookkeeping of the `finally` block. -/
theorem promiseBranchTrace_registryOps (env : DispatchEnv) (data : JobData)
    (dn : String) (tag : BranchTag) (warn : Bool) (ac : Nat)
    (outcome : Except JsErr Unit) :
    (promiseBranchTrace env data dn tag warn ac outcome).registryOps =
      registryFinally data.taskId := by
  cases outcome <;> rfl

/-- Projections of the shared promise-branch trace: exactly one log
record, successful or failed according to the outcome. -/
theorem promiseBranchTrace_logRecords (env : DispatchEnv) (data : JobData)
    (dn : String) (tag : BranchTag) (warn : Bool) (ac : Nat)
    (outcome : Except JsErr Unit) :
    (promiseBranchTrace env data dn tag warn ac outcome).logRecords =
      [match outcome with
       | .ok _ => logPrintResult env data dn "success" ""
       | .error e => logPrintResult env data dn "failed" e.msgOrString] := by
  cases outcome <;> rfl

/-- A job whose type tag tests positive for one tag tests negative for
any other tag. -/
theorem typeIs_eq_false_of_ne (t : Option String) (a b : String)
    (h : typeIs t a = true) (hne : a ≠ b) : typeIs t b = false := by
  cases t with
  | none => rfl
  | some s =>
    simp only [typeIs, Bool.and_eq_true, decide_eq_true_eq] at h
    simp [typeIs, h.1, h.2, hne]

/-- Every terminal path of the dispatcher carries the unknown-printer
warning flag computed before the gate. -/
theorem initPrintEvent_warnLogged (env : DispatchEnv) (data : JobData) :
    (initPrintEvent env data).warnLogged =
      ((targetPrinterOf env data).isNone && resolvedName env data ≠ "") := by
  simp only [initPrintEvent]
  repeat' split
  all_goals first
    | rfl
    | rw [promiseBranchTrace_warnLogged]

/-- When the status gate passes, the dispatcher never takes the faulted
path. -/
theorem initPrintEvent_branch_ne_faulted (env : DispatchEnv) (data : JobData)
    (h : printerErrorGate env.platform env.ignoreStatusOnWin32
      (targetPrinterOf env data) = false) :
    (initPrintEvent env data).branch ≠ BranchTag.faulted := by
  simp only [initPrintEvent, h]
  repeat' split
  all_goals first
    | (rw [promiseBranchTrace_branch]; simp)
    | simp_all

/-- Every terminal path of the dispatcher performs exactly the registry
bookkeeping of `registryFinally`. -/
theorem initPrintEvent_registryOps (env : DispatchEnv) (data : JobData) :
    (initPrintEvent env data).registryOps = registryFinally data.taskId := by
  simp only [initPrintEvent]
  repeat' split
  all_goals first
    | rfl
    | rw [promiseBranchTrace_registryOps]

/-! ## The claims -/

/-- C2: for every job descriptor carrying a `taskId`, every dispatch
path — faulted printer, missing blob payload, and each of the four print
branches whether it succeeds or fails — invokes the Pending-Completion
Registry callback exactly once and deletes the registry entry
immediately after the invocation. -/
theorem C2_registry_invoked_once_and_deleted (env : DispatchEnv)
    (data : JobData) (t : String) (h : data.taskId = some t) :
    (initPrintEvent env data).registryOps = [RegOp.invoke t, RegOp.del t] := by
  rw [initPrintEvent_registryOps, h]
  rfl

/-- Witness for C2 on a concrete missing-blob job carrying task id
`"J1"`. -/
theorem C2_registry_witness :
    (initPrintEvent sampleDispatchEnv sampleJobMissingBlob).registryOps =
      [RegOp.invoke "J1", RegOp.del "J1"] :=
  C2_registry_invoked_once_and_deleted sampleDispatchEnv sampleJobMissingBlob "J1" rfl

/-- C3: with a target printer found, on win32 with the ignore-status
override enabled (the source default) dispatch proceeds regardless of
status; on win32 with the override disabled the printer faults exactly
when its status differs from 0; on every other platform it faults
exactly when its status differs from the idle sentinel 3. -/
theorem C3_status_gate (p : PrinterInfo) :
    printerErrorGate Platform.win32 IGNORE_STATUS_ON_WIN32 (some p) = false ∧
    printerErrorGate Platform.win32 false (some p) = decide (p.status ≠ 0) ∧
    (∀ pl : Platform, pl ≠ Platform.win32 → ∀ ig : Bool,
      printerErrorGate pl ig (some p) = decide (p.status ≠ 3)) := by
  refine ⟨rfl, rfl, ?_⟩
  intro pl hpl ig
  cases pl with
  | win32 => exact absurd rfl hpl
  | darwin => rfl
  | linux => rfl

/-- Witness for C3: a status-5 printer passes on win32 under the default
override and a status-0 printer faults on linux. -/
theorem C3_status_gate_witness :
    printerErrorGate Platform.win32 IGNORE_STATUS_ON_WIN32
      (some ⟨"A", false, 5⟩) = false ∧
    printerErrorGate Platform.linux true (some ⟨"A", false, 0⟩) = true := by
  refine ⟨(C3_status_gate ⟨"A", false, 5⟩).1, ?_⟩
  rw [(C3_status_gate ⟨"A", false, 0⟩).2.2 Platform.linux (by decide) true]
  decide

/-- C9: the Status Prober never raises: any lookup failure yields the
fixed `"状态不可用"` sentinel, a successful lookup with no status message
yields the distinct `"未知状态"` result. -/
theorem C9_status_prober_total :
    (∀ e : JsErr, safeGetStatusMsg (.error e) = "状态不可用") ∧
    safeGetStatusMsg (.ok none) = "未知状态" ∧
    (∀ i : StatusInfo, i.StatusMsg = none ∨ i.StatusMsg = some "" →
      safeGetStatusMsg (.ok (some i)) = "未知状态") ∧
    "状态不可用" ≠ "未知状态" := by
  refine ⟨fun e => rfl, rfl, ?_, by decide⟩
  intro i hi
  rcases hi with hi | hi <;> simp [safeGetStatusMsg, hi]

/-- Witness for C9 at a thrown lookup and at a lookup yielding an empty
status message. -/
theorem C9_status_prober_witness :
    safeGetStatusMsg (.error (.errorObj "boom")) = "状态不可用" ∧
    safeGetStatusMsg (.ok (some ⟨some ""⟩)) = "未知状态" :=
  ⟨C9_status_prober_total.1 (.errorObj "boom"),
   C9_status_prober_total.2.2.1 ⟨some ""⟩ (Or.inr rfl)⟩

/-- C4: on Windows with the file present, the adapter tries the ordered
chain of three engines starting with the configured primary; the first
engine whose attempt does not throw resolves the job, a log line records
each earlier engine's failure, and if all three engines fail the job
rejects with the aggregate failure. -/
theorem C4_engine_chain_fallback (env : PdfEnv) (pdfPath : String)
    (hplat : env.platform = Platform.win32)
    (hex : env.fileExists pdfPath = true) :
    (chainByEngine "adobe" = [Engine.adobe, Engine.system, Engine.sumatra] ∧
     chainByEngine "system" = [Engine.system, Engine.adobe, Engine.sumatra] ∧
     chainByEngine "sumatra" = [Engine.sumatra, Engine.system, Engine.adobe]) ∧
    ∀ c₁ c₂ c₃ : Engine,
      chainByEngine (engineKey env.winPdfEngine) = [c₁, c₂, c₃] →
      ((env.engineResult c₁ = .ok () →
          (realPrint env pdfPath).result = .ok () ∧
          (realPrint env pdfPath).logs = []) ∧
       (∀ e₁, env.engineResult c₁ = .error e₁ → env.engineResult c₂ = .ok () →
          (realPrint env pdfPath).result = .ok () ∧
          (realPrint env pdfPath).logs = [engineFailLog e₁]) ∧
       (∀ e₁ e₂, env.engineResult c₁ = .error e₁ →
          env.engineResult c₂ = .error e₂ → env.engineResult c₃ = .ok () →
          (realPrint env pdfPath).result = .ok () ∧
          (realPrint env pdfPath).logs = [engineFailLog e₁, engineFailLog e₂]) ∧
       (∀ e₁ e₂ e₃, env.engineResult c₁ = .error e₁ →
          env.engineResult c₂ = .error e₂ → env.engineResult c₃ = .error e₃ →
          (realPrint env pdfPath).result = .error allEnginesFailedErr ∧
          (realPrint env pdfPath).logs =
            [engineFailLog e₁, engineFailLog e₂, engineFailLog e₃])) := by
  have hreal : realPrint env pdfPath =
      { logs := (runChain env.engineResult
          (chainByEngine (engineKey env.winPdfEngine))).1,
        result := (runChain env.engineResult
          (chainByEngine (engineKey env.winPdfEngine))).2 } := by
    simp [realPrint, hex, hplat]
  refine ⟨⟨rfl, rfl, rfl⟩, ?_⟩
  intro c₁ c₂ c₃ hchain
  rw [hreal, hchain]
  refine ⟨?_, ?_, ?_, ?_⟩
  · intro h1
    simp [runChain, h1]
  · intro e₁ h1 h2
    simp [runChain, h1, h2]
  · intro e₁ e₂ h1 h2 h3
    simp [runChain, h1, h2, h3]
  · intro e₁ e₂ e₃ h1 h2 h3
    simp [runChain, h1, h2, h3, allEnginesFailedErr]

/-- Witness for C4: in the sample environment the primary (Adobe) throws
and the secondary (system) succeeds, so the adapter resolves and logs
the primary's failure. -/
theorem C4_engine_chain_witness :
    (realPrint samplePdfEnv "f.pdf").result = .ok () ∧
    (realPrint samplePdfEnv "f.pdf").logs =
      [engineFailLog (.errorObj "未找到 Adobe Reader/Acrobat 可执行文件")] :=
  ((C4_engine_chain_fallback samplePdfEnv "f.pdf" rfl rfl).2
      Engine.adobe Engine.system Engine.sumatra (by decide)).2.1
    (.errorObj "未找到 Adobe Reader/Acrobat 可执行文件") rfl rfl

/-- A prefix of a tested prefix is itself a tested prefix. -/
theorem strStartsWith_mono (s p q : String)
    (hq : q.data.length ≤ p.data.length)
    (hpq : p.data.take q.data.length = q.data)
    (h : strStartsWith s p = true) : strStartsWith s q = true := by
  simp only [strStartsWith, decide_eq_true_eq] at h ⊢
  calc s.data.take q.data.length
      = (s.data.take p.data.length).take q.data.length := by
        rw [List.take_take, Nat.min_eq_left hq]
    _ = p.data.take q.data.length := by rw [h]
    _ = q.data := hpq

/-- Two distinct prefixes of equal length cannot both test positive. -/
theorem not_strStartsWith_of_ne (s p q : String)
    (hlen : p.data.length = q.data.length) (hne : p.data ≠ q.data)
    (hp : strStartsWith s p = true) : strStartsWith s q = false := by
  simp only [strStartsWith, decide_eq_true_eq] at hp
  simp only [strStartsWith, decide_eq_false_iff_not]
  intro hq
  exact hne (by rw [← hp, ← hq, hlen])

/-- C5 (amended): for every `pdfPath` the URL test accepts — beginning
with `http://` or `https://` followed by at least one character that is
not a line terminator — `printPdf` downloads over the transport matching
the scheme to the `url_pdf` spool file before any print attempt, and a
download error rejects without `realPrint` ever being reached. -/
theorem C5_url_download_before_print (env : PdfEnv) (s : String)
    (h : httpUrlTest s = true) :
    (printPdf env (.str s)).usedHttps = some (strStartsWith s "https") ∧
    (strStartsWith s "https://" = true → strStartsWith s "https" = true) ∧
    (strStartsWith s "http://" = true → strStartsWith s "https" = false) ∧
    (∀ err : JsErr, env.downloadResult = .error err →
      (printPdf env (.str s)).result = .error err ∧
      (printPdf env (.str s)).downloadedTo = none ∧
      (printPdf env (.str s)).realPrintOn = none) ∧
    (env.downloadResult = .ok () →
      (printPdf env (.str s)).downloadedTo = some (spoolPath env "url_pdf") ∧
      (printPdf env (.str s)).realPrintOn = some (spoolPath env "url_pdf")) := by
  refine ⟨?_, ?_, ?_, ?_, ?_⟩
  · cases henv : env.downloadResult with
    | ok u => simp [printPdf, h, henv]
    | error err => simp [printPdf, h, henv]
  · intro h8
    exact strStartsWith_mono s "https://" "https" (by decide) (by decide) h8
  · intro h7
    have h5 := strStartsWith_mono s "http://" "http:" (by decide) (by decide) h7
    exact not_strStartsWith_of_ne s "http:" "https" (by decide) (by decide) h5
  · intro err henv
    simp [printPdf, h, henv]
  · intro henv
    simp [printPdf, h, henv]

/-- Counterexample for C5 as stated: `"http://\n"` begins with `http://`
followed by one character, yet `printPdf` performs no download and hands
the string to `realPrint` as a local path (the regex `.+` does not match
a line terminator). -/
theorem C5_url_newline_not_downloaded :
    strStartsWith "http://\n" "http://" = true ∧
    "http://\n".length = 8 ∧
    (printPdf samplePdfEnv (JsInput.str "http://\n")).downloadedTo = none ∧
    (printPdf samplePdfEnv (JsInput.str "http://\n")).realPrintOn =
      some "http://\n" := by
  refine ⟨by decide, by decide, by decide, by decide⟩

/-- Witness for C5 on a concrete secure URL with a successful
download. -/
theorem C5_url_download_witness :
    (printPdf samplePdfEnv (JsInput.str "https://h/a.pdf")).usedHttps = some true ∧
    (printPdf samplePdfEnv (JsInput.str "https://h/a.pdf")).downloadedTo =
      some (spoolPath samplePdfEnv "url_pdf") ∧
    (printPdf samplePdfEnv (JsInput.str "https://h/a.pdf")).realPrintOn =
      some (spoolPath samplePdfEnv "url_pdf") := by
  have h := C5_url_download_before_print samplePdfEnv "https://h/a.pdf" (by decide)
  refine ⟨?_, (h.2.2.2.2 rfl).1, (h.2.2.2.2 rfl).2⟩
  rw [h.1]
  decide

/-- C6: a job whose type tag is `blob_pdf` (case-insensitive) with no
`pdf_blob` payload short-circuits to the missing-input error path —
error event when a socket exists, one failed log record with the
missing-input message, registry and busy-state bookkeeping — without
invoking the PDF Print Adapter. -/
theorem C6_missing_blob_short_circuit (env : DispatchEnv) (data : JobData)
    (htype : typeIs data.type "blob_pdf" = true)
    (hblob : data.pdf_blob = none)
    (hgate : printerErrorGate env.platform env.ignoreStatusOnWin32
      (targetPrinterOf env data) = false) :
    (initPrintEvent env data).branch = BranchTag.blobMissing ∧
    (initPrintEvent env data).adapterCalls = 0 ∧
    (initPrintEvent env data).logRecords =
      [logPrintResult env data (resolvedName env data) "failed" missingBlobMsg] ∧
    (initPrintEvent env data).events =
      emitIfSocket env.socket
        [⟨"error", missingBlobMsg, data.templateId, data.replyId⟩] ∧
    (initPrintEvent env data).registryOps = registryFinally data.taskId ∧
    (initPrintEvent env data).busySignals = 1 := by
  have hpdf : typeIs data.type "pdf" = false :=
    typeIs_eq_false_of_ne data.type "blob_pdf" "pdf" htype (by decide)
  have hurl : typeIs data.type "url_pdf" = false :=
    typeIs_eq_false_of_ne data.type "blob_pdf" "url_pdf" htype (by decide)
  simp [initPrintEvent, hgate, hpdf, hurl, htype, hblob]

/-- Witness for C6 on the concrete missing-blob job. -/
theorem C6_missing_blob_witness :
    (initPrintEvent sampleDispatchEnv sampleJobMissingBlob).branch =
      BranchTag.blobMissing ∧
    (initPrintEvent sampleDispatchEnv sampleJobMissingBlob).adapterCalls = 0 ∧
    (initPrintEvent sampleDispatchEnv sampleJobMissingBlob).logRecords =
      [logPrintResult sampleDispatchEnv sampleJobMissingBlob
        (resolvedName sampleDispatchEnv sampleJobMissingBlob) "failed"
        missingBlobMsg] ∧
    (initPrintEvent sampleDispatchEnv sampleJobMissingBlob).events =
      emitIfSocket sampleDispatchEnv.socket
        [⟨"error", missingBlobMsg, sampleJobMissingBlob.templateId,
          sampleJobMissingBlob.replyId⟩] ∧
    (initPrintEvent sampleDispatchEnv sampleJobMissingBlob).registryOps =
      registryFinally sampleJobMissingBlob.taskId ∧
    (initPrintEvent sampleDispatchEnv sampleJobMissingBlob).busySignals = 1 :=
  C6_missing_blob_short_circuit sampleDispatchEnv sampleJobMissingBlob
    (by decide) rfl (by decide)

/-- C7: `printPdfBlob` rejects immediately with a typed message for
every input that is not a Buffer, Uint8Array or Blob, and for every
valid input converts the bytes to a uniform buffer and writes them to
the `blob_pdf` spool file before printing. -/
theorem C7_blob_validation_and_spool (env : PdfEnv) (b : BlobInput) :
    (blobIsValid b = false →
      (printPdfBlob env b).result =
        .error (.errorObj "pdfBlob must be a Blob, Uint8Array, or Buffer") ∧
      (printPdfBlob env b).savedTo = none ∧
      (printPdfBlob env b).realPrintOn = none) ∧
    (∀ bs : List Nat, b = .buffer bs ∨ b = .uint8array bs ∨ b = .blob bs →
      toBuffer b = some bs) ∧
    (blobIsValid b = true → env.writeBlobResult = .ok () →
      (printPdfBlob env b).savedTo = some (spoolPath env "blob_pdf") ∧
      (printPdfBlob env b).savedBytes = toBuffer b ∧
      (printPdfBlob env b).realPrintOn = some (spoolPath env "blob_pdf")) ∧
    (blobIsValid b = true → ∀ err : JsErr, env.writeBlobResult = .error err →
      (printPdfBlob env b).result = .error err ∧
      (printPdfBlob env b).realPrintOn = none) := by
  refine ⟨?_, ?_, ?_, ?_⟩
  · intro hv
    simp [printPdfBlob, hv]
  · intro bs hbs
    rcases hbs with h | h | h <;> subst h <;> rfl
  · intro hv hw
    simp [printPdfBlob, hv, hw]
  · intro hv err hw
    simp [printPdfBlob, hv, hw]

/-- Witness for C7 at an invalid input and at a concrete two-byte
buffer. -/
theorem C7_blob_validation_witness :
    (printPdfBlob samplePdfEnv BlobInput.invalid).result =
      .error (.errorObj "pdfBlob must be a Blob, Uint8Array, or Buffer") ∧
    (printPdfBlob samplePdfEnv (BlobInput.buffer [37, 1])).savedTo =
      some (spoolPath samplePdfEnv "blob_pdf") ∧
    (printPdfBlob samplePdfEnv (BlobInput.buffer [37, 1])).savedBytes =
      some [37, 1] := by
  refine ⟨((C7_blob_validation_and_spool samplePdfEnv BlobInput.invalid).1 rfl).1,
    ((C7_blob_validation_and_spool samplePdfEnv (BlobInput.buffer [37, 1])).2.2.1
      rfl rfl).1, ?_⟩
  have h := ((C7_blob_validation_and_spool samplePdfEnv
    (BlobInput.buffer [37, 1])).2.2.1 rfl rfl).2.1
  rw [h]
  rfl

/-- A promise branch always logs exactly one record, successful or
failed, with a non-empty message on failure as long as the rejection
value is not the empty string. -/
theorem promiseBranchTrace_one_log (env : DispatchEnv) (data : JobData)
    (dn : String) (tag : BranchTag) (warn : Bool) (ac : Nat)
    (outcome : Except JsErr Unit)
    (h : outcome ≠ Except.error (JsErr.str "")) :
    ∃ rec : LogRecord,
      (promiseBranchTrace env data dn tag warn ac outcome).logRecords = [rec] ∧
      (rec.status = "success" ∨ rec.status = "failed") ∧
      (rec.status = "failed" → rec.errorMessage ≠ "") := by
  cases outcome with
  | ok u =>
    refine ⟨_, rfl, Or.inl rfl, fun hc => ?_⟩
    exact absurd hc (by simp only [logPrintResult]; decide)
  | error e =>
    refine ⟨_, rfl, Or.inr rfl, fun _ => ?_⟩
    exact msgOrString_ne_empty e (fun hc => h (by rw [hc]))

/-- Counterexample for C1 as stated: a faulted-printer job reaches a
terminal outcome (the busy-state signal fires) yet appends no Job Log
Record at all. -/
theorem C1_faulted_path_appends_no_log_record :
    (initPrintEvent faultedDispatchEnv sampleJobPdf).branch =
      BranchTag.faulted ∧
    (initPrintEvent faultedDispatchEnv sampleJobPdf).busySignals = 1 ∧
    (initPrintEvent faultedDispatchEnv sampleJobPdf).logRecords = [] := by
  refine ⟨by decide, by decide, by decide⟩

/-- C1 (amended): for every terminal outcome other than the pre-print
faulted-printer path (which appends no record), exactly one Job Log
Record is appended with status success or failed, and the error message
is non-empty on failure provided the underlying rejection value is not
itself the empty string. -/
theorem C1_one_log_record_per_terminal_outcome (env : DispatchEnv)
    (data : JobData)
    (h1 : env.printToPDFResult ≠ Except.error (JsErr.str ""))
    (h2 : env.adapterResult ≠ Except.error (JsErr.str ""))
    (h3 : env.htmlResult ≠ Except.error "")
    (hgate : printerErrorGate env.platform env.ignoreStatusOnWin32
      (targetPrinterOf env data) = false) :
    ∃ rec : LogRecord, (initPrintEvent env data).logRecords = [rec] ∧
      (rec.status = "success" ∨ rec.status = "failed") ∧
      (rec.status = "failed" → rec.errorMessage ≠ "") := by
  simp only [initPrintEvent, hgate, Bool.false_eq_true, if_false]
  split
  · -- pdf branch: split on the render-phase outcome
    split
    · rename_i e heq
      exact promiseBranchTrace_one_log env data _ _ _ _ _
        (fun hc => h1 (heq ▸ hc))
    · exact promiseBranchTrace_one_log env data _ _ _ _ _ h2
  · split
    · -- url_pdf branch
      exact promiseBranchTrace_one_log env data _ _ _ _ _ h2
    · split
      · -- blob_pdf branch: split on the payload
        split
        · refine ⟨_, rfl, Or.inr rfl, fun _ => ?_⟩
          simp only [logPrintResult, missingBlobMsg]
          decide
        · exact promiseBranchTrace_one_log env data _ _ _ _ _ h2
      · -- html branch: split on the native print callback
        split
        · refine ⟨_, rfl, Or.inl rfl, fun hc => ?_⟩
          exact absurd hc (by simp only [logPrintResult]; decide)
        · rename_i r heq
          refine ⟨_, rfl, Or.inr rfl, fun _ => ?_⟩
          exact fun hc => h3 (heq ▸ (hc ▸ rfl))

/-- Witness for C1 (amended) on the concrete missing-blob job, whose
terminal outcome is a failed record with the missing-input message. -/
theorem C1_one_log_record_witness :
    ∃ rec : LogRecord,
      (initPrintEvent sampleDispatchEnv sampleJobMissingBlob).logRecords =
        [rec] ∧
      (rec.status = "success" ∨ rec.status = "failed") ∧
      (rec.status = "failed" → rec.errorMessage ≠ "") :=
  C1_one_log_record_per_terminal_outcome sampleDispatchEnv sampleJobMissingBlob
    (by simp [sampleDispatchEnv]) (by simp [sampleDispatchEnv])
    (by simp [sampleDispatchEnv]) (by decide)

/-- C8: printer resolution uses the explicit request name when truthy,
else the persisted default-printer setting when truthy, else the name of
the first OS-default printer; and a resolved name matching no enumerated
printer still dispatches (warning logged) instead of failing. -/
theorem C8_printer_resolution (env : DispatchEnv) (data : JobData) :
    (∀ s : String, data.printer = some s → s ≠ "" →
      resolvedName env data = s) ∧
    ((data.printer = none ∨ data.printer = some "") →
      env.storeDefaultPrinter ≠ "" →
      resolvedName env data = env.storeDefaultPrinter) ∧
    (∀ ps₁ ps₂ : List PrinterInfo, ∀ p : PrinterInfo,
      (data.printer = none ∨ data.printer = some "") →
      env.storeDefaultPrinter = "" →
      env.printers = ps₁ ++ p :: ps₂ →
      (∀ q ∈ ps₁, q.isDefault = false) →
      p.isDefault = true → p.name ≠ "" →
      resolvedName env data = p.name) ∧
    (resolvedName env data ∉ env.printers.map PrinterInfo.name →
      resolvedName env data ≠ "" →
      (initPrintEvent env data).warnLogged = true ∧
      (initPrintEvent env data).branch ≠ BranchTag.faulted) := by
  refine ⟨?_, ?_, ?_, ?_⟩
  · intro s hs hne
    have hinit : resolveInit env data = s := by
      simp [resolveInit, jsOrStr, hs, hne]
    unfold resolvedName resolvePrinter
    rw [hinit]
    exact foldl_resolveStep_fst env.printers s none hne
  · intro hfalsy hstore
    have hinit : resolveInit env data = env.storeDefaultPrinter := by
      rcases hfalsy with h | h <;> simp [resolveInit, jsOrStr, h]
    unfold resolvedName resolvePrinter
    rw [hinit]
    exact foldl_resolveStep_fst env.printers env.storeDefaultPrinter none hstore
  · intro ps₁ ps₂ p hfalsy hstore hsplit hnd hdef hname
    have hinit : resolveInit env data = "" := by
      rcases hfalsy with h | h <;> simp [resolveInit, jsOrStr, h, hstore]
    unfold resolvedName resolvePrinter
    rw [hinit, hsplit, List.foldl_append]
    have h1 : (ps₁.foldl resolveStep ("", none)).1 = "" :=
      foldl_resolveStep_no_default ps₁ "" none hnd
    have hacc : ps₁.foldl resolveStep ("", (none : Option PrinterInfo)) =
        ("", (ps₁.foldl resolveStep ("", none)).2) := by
      conv_lhs => rw [← Prod.mk.eta (p := ps₁.foldl resolveStep ("", none))]
      rw [h1]
    rw [hacc, List.foldl_cons]
    have hstep : resolveStep ("", (ps₁.foldl resolveStep ("", none)).2) p =
        (p.name, some p) := by
      simp [resolveStep, hdef]
    rw [hstep]
    exact foldl_resolveStep_fst ps₂ p.name (some p) hname
  · intro hnotin hne
    have hmem := foldl_resolveStep_fst_mem env.printers (resolveInit env data, none)
    have hres : resolvedName env data =
        (env.printers.foldl resolveStep (resolveInit env data, none)).1 := rfl
    rcases hmem with hinit | hmem
    · have hinitne : resolveInit env data ≠ "" := by
        rw [hres, hinit] at hne
        exact hne
      have htp : targetPrinterOf env data = none := by
        cases htp' : targetPrinterOf env data with
        | none => rfl
        | some q =>
          have hq := foldl_resolveStep_snd env.printers (resolveInit env data)
            none hinitne (fun r hr => by cases hr) q htp'
          rcases hq with ⟨hqn, hqm | hqm⟩
          · exfalso
            apply hnotin
            rw [hres, hinit, ← hqn]
            exact List.mem_map_of_mem PrinterInfo.name hqm
          · cases hqm
      constructor
      · rw [initPrintEvent_warnLogged, htp]
        simp [hne]
      · apply initPrintEvent_branch_ne_faulted
        rw [htp]
        rfl
    · exact absurd (hres ▸ hmem) hnotin

/-- Witness for C8 on the concrete job naming a printer absent from the
enumerated list: resolution keeps the explicit name, the warning is
logged and dispatch proceeds past the gate. -/
theorem C8_printer_resolution_witness :
    resolvedName sampleDispatchEnv sampleJobUnknownPrinter = "Unknown" ∧
    (initPrintEvent sampleDispatchEnv sampleJobUnknownPrinter).warnLogged =
      true ∧
    (initPrintEvent sampleDispatchEnv sampleJobUnknownPrinter).branch ≠
      BranchTag.faulted := by
  refine ⟨(C8_printer_resolution sampleDispatchEnv sampleJobUnknownPrinter).1
    "Unknown" rfl (by decide), ?_, ?_⟩
  · exact ((C8_printer_resolution sampleDispatchEnv
      sampleJobUnknownPrinter).2.2.2 (by decide) (by decide)).1
  · exact ((C8_printer_resolution sampleDispatchEnv
      sampleJobUnknownPrinter).2.2.2 (by decide) (by decide)).2

/-- C10: `printPdf` called with a non-string `pdfPath` rejects with the
message `"pdfPath must be a string"` and performs no download and no
print attempt. -/
theorem C10_non_string_rejects (env : PdfEnv) :
    printPdf env JsInput.nonString =
      { downloadedTo := none, usedHttps := none, realPrintOn := none,
        logs := [], result := .error (.str "pdfPath must be a string") } :=
  rfl

end HiPrint
